import Mathlib

/-!
Shallow embedding of the message codec in `src/pyAPT/message.py` (Thorlabs APT
protocol framing).  Machine bytes are modelled as `Nat` values; the Python
`struct` range checks appear as explicit `< 2^8` / `< 2^16` guards, and a call
that would raise in Python returns `.error` here.  `mkMessage` embeds
`Message.__new__`, `Message.pack` the `pack` method, `Message.unpack` the
`unpack` classmethod, and `Message.hasdata` / `Message.datalength` the two
properties.  Python truthiness of the `data` field (`None` and the empty
sequence are falsy) is written out explicitly.
-/

/-- Runtime failures of the Python code: a failed `assert` statement, a
`struct.error` from `struct.pack`/`struct.unpack`, and a `TypeError`. -/
inductive PyError where
  | assertError
  | structError
  | typeError
  deriving DecidableEq, Repr

/-- The `Message` namedtuple: fields `messageID, param1, param2, dest, src,
data`.  `param1`/`param2` are `None` exactly when an extended payload is
stored, and `data` is `None` for inline messages (and for header-only
decodes). -/
structure Message where
  messageID : Nat
  param1 : Option Nat
  param2 : Option Nat
  dest : Nat
  src : Nat
  data : Option (List Nat)
  deriving DecidableEq, Repr

/-- The string-to-byte-list conversion `[ord(c) for c in data]` performed by
`Message.__new__` when `data` is a `str`. -/
def strToData (s : String) : List Nat :=
  s.data.map Char.toNat

/-- `Message.__new__(cls, messageID, dest=0x50, src=0x01, param1=0, param2=0,
data=None)`.  A truthy `data` (a nonempty sequence) requires
`param1 == 0 and param2 == 0` (an `assert`), and stores `None` for both
params; a falsy `data` (absent or empty) stores the params and `None` for
`data`.  The `type(...) == int` asserts always hold in this embedding since
every argument is a `Nat`. -/
def mkMessage (messageID dest src param1 param2 : Nat)
    (data : Option (List Nat)) : Except PyError Message :=
  match data with
  | some d =>
    if d ≠ [] then
      if param1 = 0 ∧ param2 = 0 then
        .ok ⟨messageID, none, none, dest, src, some d⟩
      else
        .error .assertError
    else
      .ok ⟨messageID, some param1, some param2, dest, src, none⟩
  | none => .ok ⟨messageID, some param1, some param2, dest, src, none⟩

/-- The `else` branch of `Message.pack`: `st.pack('<HBBBB', messageID, param1,
param2, dest, src)`.  `struct` rejects a `None` argument and any value outside
the format's range. -/
def packShort (m : Message) : Except PyError (List Nat) :=
  match m.param1, m.param2 with
  | some p1, some p2 =>
    if m.messageID < 65536 ∧ p1 < 256 ∧ p2 < 256 ∧ m.dest < 256 ∧ m.src < 256 then
      .ok [m.messageID % 256, m.messageID / 256, p1, p2, m.dest, m.src]
    else
      .error .structError
  | _, _ => .error .structError

/-- `Message.pack`.  A truthy `data` selects
`st.pack('<HHBB%dB' % datalen, messageID, datalen, dest|0x80, src, *data)`;
otherwise the short `'<HBBBB'` form is used. -/
def Message.pack (m : Message) : Except PyError (List Nat) :=
  match m.data with
  | some d =>
    if d ≠ [] then
      if m.messageID < 65536 ∧ d.length < 65536 ∧ m.dest ||| 0x80 < 256 ∧
          m.src < 256 ∧ ∀ x ∈ d, x < 256 then
        .ok ([m.messageID % 256, m.messageID / 256, d.length % 256,
              d.length / 256, m.dest ||| 0x80, m.src] ++ d)
      else
        .error .structError
    else
      packShort m
  | none => packShort m

/-- `Message.unpack(databytes, header_only)`.  The first six bytes are parsed
as `st.unpack('<HBBBB', databytes[:6])` (a `struct.error` when fewer than six
bytes are supplied).  When `dest & 0x80` is truthy the long-frame branch runs:
`datalen = param1 | (param2 << 8)`; with `header_only` the data is `None`,
otherwise `st.unpack('<%dB' % datalen, databytes[6:])` demands exactly
`datalen` trailing bytes.  Either way the result goes through
`Message.__new__`. -/
def Message.unpack (databytes : List Nat) (header_only : Bool) :
    Except PyError Message :=
  match databytes with
  | b0 :: b1 :: b2 :: b3 :: b4 :: b5 :: rest =>
    if b4 &&& 0x80 ≠ 0 then
      if header_only then
        mkMessage (b0 + 256 * b1) b4 b5 b2 b3 none
      else
        if rest.length = b2 ||| (b3 <<< 8) then
          mkMessage (b0 + 256 * b1) b4 b5 b2 b3 (some rest)
        else
          .error .structError
    else
      mkMessage (b0 + 256 * b1) b4 b5 b2 b3 none
  | _ => .error .structError

/-- The `hasdata` property: the raw value of `dest & 0x80` (Python treats a
nonzero result as true). -/
def Message.hasdata (m : Message) : Nat :=
  m.dest &&& 0x80

/-- The `datalength` property: `-1` without the extended flag; with it, the
length of a truthy `data`, and otherwise `param1 | (param2 << 8)` (a
`TypeError` if the params are `None`). -/
def Message.datalength (m : Message) : Except PyError Int :=
  if m.hasdata ≠ 0 then
    match m.data with
    | some d =>
      if d ≠ [] then
        .ok (d.length : Int)
      else
        match m.param1, m.param2 with
        | some a, some b => .ok ((a ||| (b <<< 8) : Nat) : Int)
        | _, _ => .error .typeError
    | none =>
      match m.param1, m.param2 with
      | some a, some b => .ok ((a ||| (b <<< 8) : Nat) : Int)
      | _, _ => .error .typeError
  else
    .ok (-1)

/-- Re-encode equality, `Message.__eq__`: two messages compare equal exactly
when their `pack` outputs coincide. -/
def Message.packEq (a b : Message) : Prop :=
  a.pack = b.pack

instance {ε α : Type} [DecidableEq ε] [DecidableEq α] :
    DecidableEq (Except ε α) := fun a b =>
  match a, b with
  | .ok x, .ok y =>
    if h : x = y then .isTrue (by rw [h]) else .isFalse (by simp [h])
  | .error x, .error y =>
    if h : x = y then .isTrue (by rw [h]) else .isFalse (by simp [h])
  | .ok _, .error _ => .isFalse (by simp)
  | .error _, .ok _ => .isFalse (by simp)

lemma dest_or_flag_lt (dest : Nat) (h : dest < 256) : dest ||| 0x80 < 256 := by
  have h128 : (0x80 : Nat) < 2 ^ 8 := by norm_num
  have h' : dest < 2 ^ 8 := by norm_num at h ⊢; exact h
  have := Nat.or_lt_two_pow h' h128
  norm_num at this ⊢
  exact this

/-- Claim C1 (code bug): a full decode of the bytes produced by `pack` does
not reproduce the original message.  At the repository's own
`pack_unpack_test` input (`Message(0x0223, data=[1,2,3,4,5])`), `pack`
produces `23 02 05 00 D0 01 01 02 03 04 05`, but `unpack` of those bytes
passes the nonzero length bytes as `param1`/`param2` to `Message.__new__`
together with the nonempty payload, and the constructor's
`assert(param1 == 0 and param2 == 0)` raises. -/
theorem C1_roundtrip_fails_on_own_test :
    mkMessage 0x0223 0x50 0x01 0 0 (some [1, 2, 3, 4, 5]) =
      .ok ⟨0x0223, none, none, 0x50, 0x01, some [1, 2, 3, 4, 5]⟩ ∧
    Message.pack ⟨0x0223, none, none, 0x50, 0x01, some [1, 2, 3, 4, 5]⟩ =
      .ok [0x23, 0x02, 0x05, 0x00, 0xD0, 0x01, 1, 2, 3, 4, 5] ∧
    Message.unpack [0x23, 0x02, 0x05, 0x00, 0xD0, 0x01, 1, 2, 3, 4, 5] false =
      .error .assertError :=
  ⟨by decide, by decide, by decide⟩

/-- Claim C2: for a message built with an extended payload of length
1..65535, `pack` emits opcode (2 bytes little-endian), the length (2 bytes
little-endian), `dest ||| 0x80`, `src`, then the payload bytes verbatim, with
nothing after them.  (A length-0 payload never yields the extended variant,
so the extended case is exactly nonempty `d`.) -/
theorem C2_pack_extended_layout (op dst s : Nat) (d : List Nat)
    (hop : op < 65536) (hdst : dst < 256) (hs : s < 256) (hne : d ≠ [])
    (hlen : d.length < 65536) (hbytes : ∀ x ∈ d, x < 256) :
    ∃ m : Message, mkMessage op dst s 0 0 (some d) = .ok m ∧
      m.pack = .ok ([op % 256, op / 256, d.length % 256, d.length / 256,
        dst ||| 0x80, s] ++ d) := by
  refine ⟨⟨op, none, none, dst, s, some d⟩, ?_, ?_⟩
  · simp [mkMessage, hne]
  · have hor := dest_or_flag_lt dst hdst
    simp [Message.pack, hne, hop, hlen, hor, hs, hbytes]
    exact hbytes

/-- Witness for C2 at the spec's concrete example: opcode 0x0223, dest 0x50,
src 0x01, payload `[1,2,3,4,5]` packs to `23 02 05 00 D0 01 01 02 03 04 05`. -/
theorem C2_pack_extended_layout_witness :
    ∃ m : Message, mkMessage 0x0223 0x50 0x01 0 0 (some [1, 2, 3, 4, 5]) = .ok m ∧
      m.pack = .ok ([0x23, 0x02, 0x05, 0x00, 0xD0, 0x01] ++ [1, 2, 3, 4, 5]) :=
  C2_pack_extended_layout 0x0223 0x50 0x01 [1, 2, 3, 4, 5]
    (by decide) (by decide) (by decide) (by decide) (by decide) (by decide)

/-- Claim C3: a header-only decode of a long-frame header (destination byte
with bit 7 set) returns a message whose payload is not yet read (`data` is
`none`), whose `datalength` property reports the declared length
`A ||| (B <<< 8)`, and whose `dest` keeps the raw byte with bit 7 set —
regardless of how many bytes follow the 6-byte header. -/
theorem C3_header_only_decode (b0 b1 b2 b3 b4 b5 : Nat) (rest : List Nat)
    (hbit : b4 &&& 0x80 ≠ 0) :
    ∃ m : Message,
      Message.unpack (b0 :: b1 :: b2 :: b3 :: b4 :: b5 :: rest) true = .ok m ∧
      m.data = none ∧
      m.datalength = .ok ((b2 ||| (b3 <<< 8) : Nat) : Int) ∧
      m.dest = b4 ∧ m.hasdata ≠ 0 := by
  refine ⟨⟨b0 + 256 * b1, some b2, some b3, b4, b5, none⟩, ?_, rfl, ?_, rfl, ?_⟩
  · simp [Message.unpack, mkMessage, hbit]
  · simp [Message.datalength, Message.hasdata, hbit]
  · simpa [Message.hasdata] using hbit

/-- Witness for C3 at the spec's concrete example: the first six bytes
`23 02 05 00 D0 01` alone decode (header-only) to declared length 5 and
destination byte 0xD0. -/
theorem C3_header_only_decode_witness :
    ∃ m : Message,
      Message.unpack [0x23, 0x02, 0x05, 0x00, 0xD0, 0x01] true = .ok m ∧
      m.data = none ∧ m.datalength = .ok 5 ∧ m.dest = 0xD0 ∧ m.hasdata ≠ 0 :=
  C3_header_only_decode 0x23 0x02 0x05 0x00 0xD0 0x01 [] (by decide)

/-- Claim C4: bit 7 of the raw destination byte is the frame discriminator.
Clear: `unpack` (in either mode) returns the inline message with
`param1 = A`, `param2 = B`, destination and source as read.  Set: the
long-frame path runs — header-only yields the header message, and a full
decode treats `A ||| (B <<< 8)` as the payload length, failing when the
trailing bytes do not match it and succeeding only when they do. -/
theorem C4_discriminator (b0 b1 b2 b3 b4 b5 : Nat) (rest : List Nat) :
    (b4 &&& 0x80 = 0 → ∀ ho : Bool,
      Message.unpack (b0 :: b1 :: b2 :: b3 :: b4 :: b5 :: rest) ho =
        .ok ⟨b0 + 256 * b1, some b2, some b3, b4, b5, none⟩) ∧
    (b4 &&& 0x80 ≠ 0 →
      Message.unpack (b0 :: b1 :: b2 :: b3 :: b4 :: b5 :: rest) true =
        .ok ⟨b0 + 256 * b1, some b2, some b3, b4, b5, none⟩ ∧
      (rest.length ≠ b2 ||| (b3 <<< 8) →
        Message.unpack (b0 :: b1 :: b2 :: b3 :: b4 :: b5 :: rest) false =
          .error .structError) ∧
      (∀ m : Message,
        Message.unpack (b0 :: b1 :: b2 :: b3 :: b4 :: b5 :: rest) false = .ok m →
        rest.length = b2 ||| (b3 <<< 8))) := by
  constructor
  · intro hbit ho
    simp [Message.unpack, mkMessage, hbit]
  · intro hbit
    refine ⟨by simp [Message.unpack, mkMessage, hbit], ?_, ?_⟩
    · intro hlen
      simp [Message.unpack, hbit, hlen]
    · intro m hm
      by_contra hlen
      simp [Message.unpack, hbit, hlen] at hm

/-- Witness for C4: the spec's short frame `11 02 01 00 50 01` (bit 7 clear)
decodes inline, and the long header `23 02 05 00 D0 01` (bit 7 set) takes
the header-only long path. -/
theorem C4_discriminator_witness :
    Message.unpack [0x11, 0x02, 0x01, 0x00, 0x50, 0x01] false =
      .ok ⟨0x0211, some 0x01, some 0x00, 0x50, 0x01, none⟩ ∧
    Message.unpack [0x23, 0x02, 0x05, 0x00, 0xD0, 0x01] true =
      .ok ⟨0x0223, some 0x05, some 0x00, 0xD0, 0x01, none⟩ := by
  constructor
  · exact (C4_discriminator 0x11 0x02 0x01 0x00 0x50 0x01 []).1 (by decide) false
  · exact ((C4_discriminator 0x23 0x02 0x05 0x00 0xD0 0x01 []).2 (by decide)).1

/-- Claim C5: constructing a message with inline parameters and a (nonempty)
extended payload at the same time fails at construction — the constructor's
`assert(param1 == 0 and param2 == 0)` raises before any encode. -/
theorem C5_conflicting_construction_rejected (op dst s p1 p2 : Nat)
    (d : List Nat) (hne : d ≠ []) (hp : ¬(p1 = 0 ∧ p2 = 0)) :
    mkMessage op dst s p1 p2 (some d) = .error .assertError := by
  simp [mkMessage, hne, hp]

/-- Witness for C5 at the spec's concrete example: `param1 = 1` together with
payload `[1, 2, 3]`. -/
theorem C5_conflicting_construction_witness :
    mkMessage 0x0223 0x50 0x01 1 0 (some [1, 2, 3]) = .error .assertError :=
  C5_conflicting_construction_rejected 0x0223 0x50 0x01 1 0 [1, 2, 3]
    (by decide) (by decide)

/-- Counterexample to claim C6: construction does not reject out-of-range
values.  `Message.__new__` only asserts `type(...) == int`, so an opcode of
65536 (and params of 256/300) construct successfully; the claim says they
are rejected at construction time. -/
theorem C6_out_of_range_accepted_at_construction :
    mkMessage 65536 0x50 0x01 0 0 none =
      .ok ⟨65536, some 0, some 0, 0x50, 0x01, none⟩ ∧
    mkMessage 0x0223 0x50 0x01 256 300 none =
      .ok ⟨0x0223, some 256, some 300, 0x50, 0x01, none⟩ :=
  ⟨by decide, by decide⟩

/-- Claim C6 as amended: an opcode outside the 16-bit range or a param
outside the 8-bit range is accepted by the constructor (which only checks
the values are integers) and rejected later, at `pack` time, by the
`struct` range check. -/
theorem C6_range_rejected_at_pack_not_construction (op dst s p1 p2 : Nat)
    (hrange : 65536 ≤ op ∨ 256 ≤ p1 ∨ 256 ≤ p2) :
    ∃ m : Message, mkMessage op dst s p1 p2 none = .ok m ∧
      m.pack = .error .structError := by
  refine ⟨⟨op, some p1, some p2, dst, s, none⟩, by simp [mkMessage], ?_⟩
  have hguard : ¬(op < 65536 ∧ p1 < 256 ∧ p2 < 256 ∧ dst < 256 ∧ s < 256) := by
    omega
  simp [Message.pack, packShort, hguard]

/-- Witness for the amended C6: opcode 65536 constructs but fails to pack. -/
theorem C6_range_rejected_at_pack_witness :
    ∃ m : Message, mkMessage 65536 0x50 0x01 0 0 none = .ok m ∧
      m.pack = .error .structError :=
  C6_range_rejected_at_pack_not_construction 65536 0x50 0x01 0 0
    (Or.inl (by decide))

/-- Claim C7: a full decode of a long frame whose trailing bytes number
fewer than the declared length fails with a `struct.error` rather than
returning a shorter payload. -/
theorem C7_truncated_payload_rejected (b0 b1 b2 b3 b4 b5 : Nat)
    (rest : List Nat) (hbit : b4 &&& 0x80 ≠ 0)
    (hlt : rest.length < b2 ||| (b3 <<< 8)) :
    Message.unpack (b0 :: b1 :: b2 :: b3 :: b4 :: b5 :: rest) false =
      .error .structError := by
  simp [Message.unpack, hbit, Nat.ne_of_lt hlt]

/-- Witness for C7 at the spec's concrete example: declared length 5 with
only 3 trailing bytes. -/
theorem C7_truncated_payload_witness :
    Message.unpack [0x23, 0x02, 0x05, 0x00, 0xD0, 0x01, 1, 2, 3] false =
      .error .structError :=
  C7_truncated_payload_rejected 0x23 0x02 0x05 0x00 0xD0 0x01 [1, 2, 3]
    (by decide) (by decide)

/-- Claim C8: `pack` of a message whose extended payload is longer than
65535 bytes fails (the length cannot be packed into the 2-byte `H` field)
instead of truncating or wrapping. -/
theorem C8_oversized_payload_pack_fails (m : Message) (d : List Nat)
    (hdata : m.data = some d) (hlen : 65535 < d.length) :
    m.pack = .error .structError := by
  obtain ⟨mid, p1, p2, dst, s, dat⟩ := m
  simp only at hdata
  subst hdata
  have hne : d ≠ [] := by
    intro h
    subst h
    simp at hlen
  have hguard : ¬(mid < 65536 ∧ d.length < 65536 ∧ dst ||| 0x80 < 256 ∧
      s < 256 ∧ ∀ x ∈ d, x < 256) := by
    rintro ⟨-, h2, -⟩
    omega
  simp [Message.pack, hne, hguard]

/-- Witness for C8: a 70000-byte payload fails to pack. -/
theorem C8_oversized_payload_witness :
    Message.pack ⟨0x0223, none, none, 0x50, 0x01,
      some (List.replicate 70000 0)⟩ = .error .structError :=
  C8_oversized_payload_pack_fails _ (List.replicate 70000 0) rfl
    (by rw [List.length_replicate]; omega)

/-- Claim C9: an empty extended payload (`data=[]`, or `data=""` which
converts to `[]`) is falsy, so construction yields the inline variant —
`data` stored as `none`, `param1 = param2 = some 0` by default — and `pack`
emits the 6-byte short frame whose destination byte (default 0x50) has
bit 7 clear. -/
theorem C9_empty_payload_is_inline (op : Nat) (hop : op < 65536) :
    strToData "" = [] ∧
    ∃ m : Message, mkMessage op 0x50 0x01 0 0 (some []) = .ok m ∧
      m.data = none ∧ m.param1 = some 0 ∧ m.param2 = some 0 ∧
      m.pack = .ok [op % 256, op / 256, 0, 0, 0x50, 0x01] ∧
      (0x50 : Nat) &&& 0x80 = 0 := by
  refine ⟨rfl, ⟨op, some 0, some 0, 0x50, 0x01, none⟩, by simp [mkMessage],
    rfl, rfl, rfl, ?_, by decide⟩
  simp [Message.pack, packShort, hop]

/-- Witness for C9 at opcode 0x0223. -/
theorem C9_empty_payload_witness :
    strToData "" = [] ∧
    ∃ m : Message, mkMessage 0x0223 0x50 0x01 0 0 (some []) = .ok m ∧
      m.data = none ∧ m.param1 = some 0 ∧ m.param2 = some 0 ∧
      m.pack = .ok [0x23, 0x02, 0, 0, 0x50, 0x01] ∧
      (0x50 : Nat) &&& 0x80 = 0 :=
  C9_empty_payload_is_inline 0x0223 (by decide)

/-- Claim C10: a full decode of a long frame succeeds only when exactly the
declared number of bytes follows the header — extra trailing bytes are a
`struct.error` too, not silently ignored. -/
theorem C10_excess_payload_rejected (b0 b1 b2 b3 b4 b5 : Nat)
    (rest : List Nat) (hbit : b4 &&& 0x80 ≠ 0)
    (hgt : b2 ||| (b3 <<< 8) < rest.length) :
    Message.unpack (b0 :: b1 :: b2 :: b3 :: b4 :: b5 :: rest) false =
      .error .structError := by
  simp [Message.unpack, hbit, Nat.ne_of_gt hgt]

/-- Witness for C10: declared length 5 with 7 trailing bytes. -/
theorem C10_excess_payload_witness :
    Message.unpack [0x23, 0x02, 0x05, 0x00, 0xD0, 0x01, 1, 2, 3, 4, 5, 6, 7]
      false = .error .structError :=
  C10_excess_payload_rejected 0x23 0x02 0x05 0x00 0xD0 0x01
    [1, 2, 3, 4, 5, 6, 7] (by decide) (by decide)
